import Mathlib

/-!
Verification of the studypal voice-assistant script (src/studypal.py).

The script's pure logic is shallowly embedded here. Strings are modelled
as `List Char`; the third-party collaborators (the `requests` HTTP client,
the BeautifulSoup HTML parsing, PyPDF2 page extraction, and the tiktoken
tokenizer) are abstracted as explicit function-valued parameters, so each
source function becomes a Lean function of those capabilities plus its
original arguments. The pipecat pipeline internals are not part of the
repository; where a claim depends on them, the behaviour is modelled from
the specification and marked as such in the doc comment.
-/

/-- Substring test, embedding the Python expression `pat in s` on strings:
true iff `pat` occurs contiguously in `s`. -/
def containsSub : List Char → List Char → Bool
  | [], pat => pat.isEmpty
  | c :: cs, pat => pat.isPrefixOf (c :: cs) || containsSub cs pat

/-- Suffix test, embedding the Python expression `s.endswith(pat)`. -/
def endsWithList (s pat : List Char) : Bool :=
  pat.reverse.isPrefixOf s.reverse

/-- Fuel-indexed worker for `replaceAll`. The fuel is the length of the
remaining input, which strictly decreases at each step, so the recursion is
structural and computable by the kernel. -/
def replaceAllFuel (pat rep : List Char) : Nat → List Char → List Char
  | 0, s => s
  | _ + 1, [] => []
  | fuel + 1, c :: cs =>
    if !pat.isEmpty && pat.isPrefixOf (c :: cs) then
      rep ++ replaceAllFuel pat rep fuel (List.drop pat.length (c :: cs))
    else
      c :: replaceAllFuel pat rep fuel cs

/-- Embedding of Python `s.replace(pat, rep)`: replaces every occurrence of
`pat` in `s` by `rep`, scanning left to right without overlap. -/
def replaceAll (s pat rep : List Char) : List Char :=
  replaceAllFuel pat rep s.length s

/-- An HTTP response as observed by the script: a status code and a body. -/
structure HttpResponse where
  status_code : Nat
  content : List Char
deriving DecidableEq

/-- The external collaborators of the content loader: `requests.get`, the
BeautifulSoup lookup of the div with class mw-parser-output followed by
`get_text()` (returning `none` when the element is absent), and the PyPDF2
per-page `extract_text()` results. -/
structure Env where
  http_get : List Char → HttpResponse
  soup_find_parser_output : List Char → Option (List Char)
  pdf_pages : List Char → List (List Char)

def arxivOrgPat : List Char := "arxiv.org".toList
def absPat : List Char := "/abs/".toList
def pdfPat : List Char := "/pdf/".toList
def dotPdfPat : List Char := ".pdf".toList

def failWikiText : List Char :=
  "Failed to extract Wikipedia article content.".toList

def failArxivText : List Char :=
  "Failed to download arXiv PDF.".toList

/-- Embedding of `get_wikipedia_content` (src/studypal.py lines 42-51). -/
def get_wikipedia_content (env : Env) (url : List Char) : List Char :=
  let response := env.http_get url
  match env.soup_find_parser_output response.content with
  | some text => text
  | none => failWikiText

/-- The URL normalisation performed by `get_arxiv_content`
(src/studypal.py lines 55-58): replace `/abs/` with `/pdf/`, then append
`.pdf` unless the URL already ends with it. -/
def normalizeArxivUrl (url : List Char) : List Char :=
  let url1 := if containsSub url absPat then replaceAll url absPat pdfPat else url
  if endsWithList url1 dotPdfPat then url1 else url1 ++ dotPdfPat

/-- Embedding of `get_arxiv_content` (src/studypal.py lines 54-69):
normalise the URL, fetch it, and on status 200 concatenate the extracted
text of every PDF page, otherwise return the failure sentinel string. -/
def get_arxiv_content (env : Env) (url : List Char) : List Char :=
  let response := env.http_get (normalizeArxivUrl url)
  if response.status_code == 200 then
    (env.pdf_pages response.content).flatten
  else
    failArxivText

/-- Embedding of `get_article_content` (src/studypal.py lines 35-39). -/
def get_article_content (env : Env) (url : List Char) : List Char :=
  if containsSub url arxivOrgPat then
    get_arxiv_content env url
  else
    get_wikipedia_content env url

/-- The tokenizer obtained from `tiktoken.encoding_for_model("gpt-4")`,
abstracted as an encode/decode pair. -/
structure Encoding where
  encode : List Char → List Nat
  decode : List Nat → List Char

/-- Embedding of `truncate_content` (src/studypal.py lines 72-78). -/
def truncate_content (enc : Encoding) (content : List Char)
    (max_tokens : Nat) : List Char :=
  let tokens := enc.encode content
  if tokens.length > max_tokens then
    enc.decode (tokens.take max_tokens)
  else
    content

/-- The role field of a chat message. -/
inductive Role where
  | system
  | user
  | assistant
deriving DecidableEq

/-- A conversation message, as the dictionaries in the `messages` list. -/
structure Message where
  role : Role
  content : List Char
deriving DecidableEq

/-- The text before the interpolated article content in the system prompt
built in `main` (src/studypal.py lines 115-120). -/
def systemPromptPre : List Char :=
  ("You are an AI study partner. You have been given the following article content:\n\n").toList

/-- The text after the interpolated article content in the system prompt. -/
def systemPromptPost : List Char :=
  ("\n\nYour task is to help the user concisely understand and learn from this article. THESE RESPONSES SHOULD BE ONLY 1-3 SENTENCES AND CONCISE. THIS INSTRUCTION IS VERY IMPORTANT. RESPONSES SHOULDN\x27T BE LONG.\n").toList

/-- The content of the initial system message: the f-string of `main` with
the (truncated) article content interpolated. -/
def system_message_content (article_content : List Char) : List Char :=
  systemPromptPre ++ article_content ++ systemPromptPost

/-- The ingestion performed at the top of `main` (src/studypal.py lines
83-84): load the article for the URL, then truncate it to the default
budget of 7000 tokens. -/
def ingest (env : Env) (enc : Encoding) (url : List Char) : List Char :=
  truncate_content enc (get_article_content env url) 7000

/-- The `messages` list as constructed in `main` (src/studypal.py lines
112-122): a single system message embedding the ingested article. -/
def initial_messages (env : Env) (enc : Encoding) (url : List Char) :
    List Message :=
  [⟨Role.system, system_message_content (ingest env enc url)⟩]

/-- The greeting dictionary appended by `on_first_participant_joined`
(src/studypal.py lines 141-142). Its role field is `"system"` in the
source. -/
def greeting_message : Message :=
  ⟨Role.system,
   ("Hello! I\x27m ready to discuss the article with you. What would you like to learn about?").toList⟩

/-- Embedding of the mutation performed by `on_first_participant_joined`
(src/studypal.py lines 138-143) on the shared `messages` list: a single
append of the greeting at the tail. -/
def on_first_participant_joined (messages : List Message) : List Message :=
  messages ++ [greeting_message]

/-- The conversation log over session time: at time 0 the log is the list
built in `main`; the first-participant-joined event (delivered once per
session by the transport) appends the greeting, after which the log seen by
the two operations in the source no longer changes. -/
def session_log (env : Env) (enc : Encoding) (url : List Char) :
    Nat → List Message
  | 0 => initial_messages env enc url
  | _ + 1 => on_first_participant_joined (initial_messages env enc url)

/-- The two parameters the script passes to `PipelineParams`
(src/studypal.py line 136). -/
structure PipelineParams where
  allow_interruptions : Bool
  enable_metrics : Bool
deriving DecidableEq

/-- The parameters of the `PipelineTask` built in `main`:
`allow_interruptions=True, enable_metrics=True`. -/
def task_params : PipelineParams :=
  ⟨true, true⟩

/-- Modelled from the spec: the pipecat `PipelineTask` frame forwarding is
library code outside this repository. Per the spec, when interruptions are
allowed and the user starts speaking at frame index `k` of an assistant
reply, the frames of that reply from index `k` on are not forwarded to the
transport output; with `interrupt_at = none` the whole reply is forwarded. -/
def forwarded_to_output (params : PipelineParams) (reply : List Nat)
    (interrupt_at : Option Nat) : List Nat :=
  match interrupt_at with
  | none => reply
  | some k => if params.allow_interruptions then reply.take k else reply

/-- Modelled from the spec: the TurnController states of section 4.4. The
turn-taking machinery lives in the pipecat library, outside this
repository, so it is modelled from the specification text. -/
inductive TCState where
  | idle
  | listening
  | awaitingResponse
  | responding
  | cancelling
deriving DecidableEq

/-- Modelled from the spec: the events driving the TurnController
transitions of section 4.4. -/
inductive TCEvent where
  | sessionStart
  | transcriptFinal
  | firstChunk
  | interrupt
  | cancelDone
  | speechFinal
deriving DecidableEq

/-- Modelled from the spec: the pipeline state tracked for the
single-turn-in-flight property. `active` lists the turn indices whose
GenerationStage/SynthesisStage pair is currently running; `next` is the
index the next turn will receive. -/
structure TurnSystem where
  tc : TCState
  active : List Nat
  next : Nat
deriving DecidableEq

/-- Modelled from the spec: the transition function of section 4.4. A
GenerationStage/SynthesisStage pair starts when a final transcript arrives
in the listening state, and is retired when the turn reaches a terminal
state: natural completion (speechFinal) or cancelled-and-drained
(cancelDone). All other event/state combinations leave the state
unchanged. -/
def tcStep (s : TurnSystem) (e : TCEvent) : TurnSystem :=
  match s.tc, e with
  | TCState.idle, TCEvent.sessionStart =>
      ⟨TCState.listening, s.active, s.next⟩
  | TCState.listening, TCEvent.transcriptFinal =>
      ⟨TCState.awaitingResponse, s.active ++ [s.next], s.next + 1⟩
  | TCState.awaitingResponse, TCEvent.firstChunk =>
      ⟨TCState.responding, s.active, s.next⟩
  | TCState.responding, TCEvent.interrupt =>
      ⟨TCState.cancelling, s.active, s.next⟩
  | TCState.cancelling, TCEvent.cancelDone =>
      ⟨TCState.listening, s.active.drop 1, s.next⟩
  | TCState.responding, TCEvent.speechFinal =>
      ⟨TCState.listening, s.active.drop 1, s.next⟩
  | _, _ => s

/-- Modelled from the spec: at session start no turn is in flight and the
controller is idle. -/
def tcInit : TurnSystem :=
  ⟨TCState.idle, [], 0⟩

/-- Modelled from the spec: the state reached after a sequence of events. -/
def runTC (events : List TCEvent) : TurnSystem :=
  events.foldl tcStep tcInit

/-- The inductive invariant for single-turn-in-flight: at most one pair is
active, and none is active while the controller is idle or listening. -/
def tcInv (s : TurnSystem) : Prop :=
  s.active.length ≤ 1 ∧
    ((s.tc = TCState.idle ∨ s.tc = TCState.listening) → s.active = [])

/-- Appending the sought suffix makes `endsWithList` true. -/
theorem endsWithList_append (u pat : List Char) :
    endsWithList (u ++ pat) pat = true := by
  unfold endsWithList
  rw [List.reverse_append]
  exact List.isPrefixOf_iff_prefix.mpr ⟨u.reverse, rfl⟩

/-- The normalised arXiv URL always ends with `.pdf`. -/
theorem normalizeArxivUrl_ends_pdf (url : List Char) :
    endsWithList (normalizeArxivUrl url) dotPdfPat = true := by
  unfold normalizeArxivUrl
  cases he : endsWithList
      (if containsSub url absPat then replaceAll url absPat pdfPat else url)
      dotPdfPat
  · simp [he, endsWithList_append]
  · simp [he]

/-- Normalisation is a no-op on a URL that contains no `/abs/` and already
ends with `.pdf`. -/
theorem normalizeArxivUrl_fixed (v : List Char)
    (habs : containsSub v absPat = false)
    (hpdf : endsWithList v dotPdfPat = true) :
    normalizeArxivUrl v = v := by
  unfold normalizeArxivUrl
  simp [habs, hpdf]

/-- A sample environment in which every fetch succeeds. -/
def envDemo : Env :=
  ⟨fun _ => ⟨200, "body".toList⟩,
   fun _ => some "wiki text".toList,
   fun _ => ["page one ".toList, "page two".toList]⟩

/-- A sample environment in which the Wikipedia content element is absent
and the arXiv download fails with status 404. -/
def envFail : Env :=
  ⟨fun _ => ⟨404, "not found".toList⟩,
   fun _ => none,
   fun _ => []⟩

/-- A sample tokenizer: one token per character. -/
def encDemo : Encoding :=
  ⟨fun s => s.map Char.toNat, fun ts => ts.map Char.ofNat⟩

/-- C2: for every text and token budget, `truncate_content` returns the
content unchanged when its tokenization has at most `max_tokens` tokens,
and otherwise returns the decoding of exactly the first `max_tokens` tokens
of that tokenization. The gpt-4 tokenizer is abstracted as the
encode/decode pair `enc`. -/
theorem truncate_content_spec (enc : Encoding) (content : List Char)
    (m : Nat) :
    ((enc.encode content).length ≤ m →
      truncate_content enc content m = content) ∧
    (m < (enc.encode content).length →
      truncate_content enc content m =
        enc.decode ((enc.encode content).take m)) := by
  constructor
  · intro h
    unfold truncate_content
    simp [Nat.not_lt.mpr h]
  · intro h
    unfold truncate_content
    simp [h]

/-- Witness for C2 at a concrete tokenizer, text and budget: both branches
are exercised. -/
theorem truncate_content_spec_witness :
    truncate_content encDemo "abc".toList 5 = "abc".toList ∧
    truncate_content encDemo "abc".toList 2 =
      encDemo.decode ((encDemo.encode "abc".toList).take 2) :=
  ⟨(truncate_content_spec encDemo "abc".toList 5).1 (by decide),
   (truncate_content_spec encDemo "abc".toList 2).2 (by decide)⟩

/-- C8: `truncate_content` is deterministic. It is embedded as a pure
function of the tokenizer and its two arguments, so it can modify no
program state; any two invocations on equal arguments return equal
results. -/
theorem truncate_content_deterministic (enc : Encoding)
    (c c2 : List Char) (m m2 : Nat) (hc : c = c2) (hm : m = m2) :
    truncate_content enc c m = truncate_content enc c2 m2 := by
  subst hc
  subst hm
  rfl

/-- Witness for C8: two invocations on the same concrete arguments agree. -/
theorem truncate_content_deterministic_witness :
    truncate_content encDemo "ab".toList 1 =
      truncate_content encDemo "ab".toList 1 :=
  truncate_content_deterministic encDemo "ab".toList "ab".toList 1 1 rfl rfl

/-- C4: `get_article_content` dispatches on whether the URL contains the
substring arxiv.org, returning the arXiv PDF extraction for such URLs and
the Wikipedia extraction otherwise; in both success cases the result is the
extracted plain text of the document (the found content element's text, or
the concatenated text of the PDF pages). -/
theorem get_article_content_dispatch (env : Env) (url : List Char) :
    (containsSub url arxivOrgPat = true →
      get_article_content env url = get_arxiv_content env url) ∧
    (containsSub url arxivOrgPat = false →
      get_article_content env url = get_wikipedia_content env url) ∧
    (∀ text : List Char, containsSub url arxivOrgPat = false →
      env.soup_find_parser_output (env.http_get url).content = some text →
      get_article_content env url = text) ∧
    (containsSub url arxivOrgPat = true →
      (env.http_get (normalizeArxivUrl url)).status_code = 200 →
      get_article_content env url =
        (env.pdf_pages (env.http_get (normalizeArxivUrl url)).content).flatten) := by
  refine ⟨fun h => by simp [get_article_content, h],
    fun h => by simp [get_article_content, h],
    fun text h hfind => ?_, fun h h200 => ?_⟩
  · simp [get_article_content, h, get_wikipedia_content, hfind]
  · simp [get_article_content, h, get_arxiv_content, h200]

/-- Witness for C4: the dispatch and both success shapes at concrete URLs
in a concrete environment. -/
theorem get_article_content_dispatch_witness :
    get_article_content envDemo "https://arxiv.org/abs/1234.5".toList =
      get_arxiv_content envDemo "https://arxiv.org/abs/1234.5".toList ∧
    get_article_content envDemo "https://example.com/a".toList =
      "wiki text".toList :=
  ⟨(get_article_content_dispatch envDemo "https://arxiv.org/abs/1234.5".toList).1
      (by decide),
   (get_article_content_dispatch envDemo "https://example.com/a".toList).2.2.1
      "wiki text".toList (by decide) rfl⟩

/-- C9 counterexample: the URL normalisation of `get_arxiv_content` is not
idempotent. For the input arxiv.org/abs/abs/1 the first normalisation
yields arxiv.org/pdf/abs/1.pdf, which still contains `/abs/`, so a second
normalisation changes it to arxiv.org/pdf/pdf/1.pdf. -/
theorem normalizeArxivUrl_not_idempotent :
    normalizeArxivUrl (normalizeArxivUrl "arxiv.org/abs/abs/1".toList) ≠
      normalizeArxivUrl "arxiv.org/abs/abs/1".toList := by decide

/-- C9 (amended): `get_arxiv_content` fetches the normalised URL obtained
by replacing `/abs/` with `/pdf/` and appending `.pdf` when not already
present; the fetched URL always ends with `.pdf`, and normalisation leaves
an already-normalised URL unchanged provided that URL no longer contains
`/abs/` (which holds for all well-formed arXiv URLs, though not for
pathological ones such as those containing `/abs/abs/`). -/
theorem get_arxiv_content_url_normalization (env : Env) (url : List Char)
    (h : containsSub (normalizeArxivUrl url) absPat = false) :
    endsWithList (normalizeArxivUrl url) dotPdfPat = true ∧
    normalizeArxivUrl (normalizeArxivUrl url) = normalizeArxivUrl url ∧
    get_arxiv_content env url =
      (if (env.http_get (normalizeArxivUrl url)).status_code == 200 then
        (env.pdf_pages (env.http_get (normalizeArxivUrl url)).content).flatten
      else failArxivText) :=
  ⟨normalizeArxivUrl_ends_pdf url,
   normalizeArxivUrl_fixed (normalizeArxivUrl url) h
     (normalizeArxivUrl_ends_pdf url),
   rfl⟩

/-- Witness for C9 (amended) at a concrete well-formed arXiv URL. -/
theorem get_arxiv_content_url_normalization_witness :
    containsSub (normalizeArxivUrl "https://arxiv.org/abs/2306.1".toList)
      absPat = false ∧
    normalizeArxivUrl (normalizeArxivUrl "https://arxiv.org/abs/2306.1".toList) =
      normalizeArxivUrl "https://arxiv.org/abs/2306.1".toList :=
  ⟨by decide,
   (get_arxiv_content_url_normalization envDemo
      "https://arxiv.org/abs/2306.1".toList (by decide)).2.1⟩

/-- How the `messages` list of `main` looks once the ingested article text
is known: a single system message embedding the (un-truncated, when within
budget) article text. -/
theorem initial_messages_of_ingest (env : Env) (enc : Encoding)
    (url t : List Char)
    (hart : get_article_content env url = t)
    (hlen : (enc.encode t).length ≤ 7000) :
    initial_messages env enc url =
      [⟨Role.system, system_message_content t⟩] := by
  unfold initial_messages ingest truncate_content
  rw [hart]
  simp [Nat.not_lt.mpr hlen]

/-- C3 counterexample: when the Wikipedia page lacks the expected content
element, `get_article_content` does not return an error value — it returns
the sentinel text, and the `messages` construction of `main` proceeds,
embedding that text in the initial system message. -/
theorem loader_failure_not_an_error :
    get_article_content envFail "https://en.wikipedia.org/wiki/X".toList =
      failWikiText ∧
    initial_messages envFail encDemo "https://en.wikipedia.org/wiki/X".toList =
      [⟨Role.system, system_message_content failWikiText⟩] := by
  constructor
  · rfl
  · exact initial_messages_of_ingest envFail encDemo
      "https://en.wikipedia.org/wiki/X".toList failWikiText rfl (by decide)

/-- C3 (amended): when the content loader fails in either mode — the arXiv
PDF download returns a non-200 status, or the Wikipedia page lacks the
expected content element — `get_article_content` surfaces the failure to
the caller as a sentinel failure string rather than an error value, and
session start proceeds: `main` truncates that text and embeds it in the
initial system message. -/
theorem loader_failure_surfaced_as_text (env : Env) (enc : Encoding)
    (url : List Char)
    (hfail :
      (containsSub url arxivOrgPat = true ∧
        (env.http_get (normalizeArxivUrl url)).status_code ≠ 200) ∨
      (containsSub url arxivOrgPat = false ∧
        env.soup_find_parser_output (env.http_get url).content = none))
    (hlen : (enc.encode (get_article_content env url)).length ≤ 7000) :
    (get_article_content env url = failArxivText ∨
      get_article_content env url = failWikiText) ∧
    initial_messages env enc url =
      [⟨Role.system, system_message_content (get_article_content env url)⟩] := by
  refine ⟨?_, initial_messages_of_ingest env enc url
    (get_article_content env url) rfl hlen⟩
  rcases hfail with ⟨h1, h2⟩ | ⟨h1, h2⟩
  · left
    simp [get_article_content, h1, get_arxiv_content, h2]
  · right
    simp [get_article_content, h1, get_wikipedia_content, h2]

/-- Witness for C3 (amended) in the failing environment: the arXiv non-200
branch and the missing-content-element branch. -/
theorem loader_failure_surfaced_as_text_witness :
    ((get_article_content envFail "https://arxiv.org/abs/9b".toList =
        failArxivText ∨
      get_article_content envFail "https://arxiv.org/abs/9b".toList =
        failWikiText) ∧
     initial_messages envFail encDemo "https://arxiv.org/abs/9b".toList =
       [⟨Role.system, system_message_content
          (get_article_content envFail "https://arxiv.org/abs/9b".toList)⟩]) ∧
    ((get_article_content envFail "https://en.wikipedia.org/wiki/Y".toList =
        failArxivText ∨
      get_article_content envFail "https://en.wikipedia.org/wiki/Y".toList =
        failWikiText) ∧
     initial_messages envFail encDemo
        "https://en.wikipedia.org/wiki/Y".toList =
       [⟨Role.system, system_message_content
          (get_article_content envFail
            "https://en.wikipedia.org/wiki/Y".toList)⟩]) :=
  ⟨loader_failure_surfaced_as_text envFail encDemo
      "https://arxiv.org/abs/9b".toList
      (Or.inl ⟨by decide, by decide⟩) (by decide),
   loader_failure_surfaced_as_text envFail encDemo
      "https://en.wikipedia.org/wiki/Y".toList
      (Or.inr ⟨by decide, rfl⟩) (by decide)⟩

/-- C10: on extraction failure `get_article_content` returns a sentinel
string, never an error value: the non-200 arXiv download yields the string
Failed to download arXiv PDF. and the Wikipedia page without the main
content element yields the string Failed to extract Wikipedia article
content.; in either case `main` truncates this failure text and embeds it
as the article content of the initial system message. -/
theorem extraction_failure_strings (env : Env) (enc : Encoding)
    (url : List Char) :
    (containsSub url arxivOrgPat = true →
      (env.http_get (normalizeArxivUrl url)).status_code ≠ 200 →
      get_article_content env url = failArxivText ∧
      ((enc.encode failArxivText).length ≤ 7000 →
        initial_messages env enc url =
          [⟨Role.system, system_message_content failArxivText⟩])) ∧
    (containsSub url arxivOrgPat = false →
      env.soup_find_parser_output (env.http_get url).content = none →
      get_article_content env url = failWikiText ∧
      ((enc.encode failWikiText).length ≤ 7000 →
        initial_messages env enc url =
          [⟨Role.system, system_message_content failWikiText⟩])) := by
  constructor
  · intro hurl h200
    have harts : get_article_content env url = failArxivText := by
      simp [get_article_content, hurl, get_arxiv_content, h200]
    exact ⟨harts, fun hlen =>
      initial_messages_of_ingest env enc url failArxivText harts hlen⟩
  · intro hurl hfind
    have harts : get_article_content env url = failWikiText := by
      simp [get_article_content, hurl, get_wikipedia_content, hfind]
    exact ⟨harts, fun hlen =>
      initial_messages_of_ingest env enc url failWikiText harts hlen⟩

/-- Witness for C10: both failure modes in the failing environment. -/
theorem extraction_failure_strings_witness :
    get_article_content envFail "https://arxiv.org/abs/9".toList =
      failArxivText ∧
    get_article_content envFail "https://example.com/b".toList =
      failWikiText :=
  ⟨((extraction_failure_strings envFail encDemo
      "https://arxiv.org/abs/9".toList).1 (by decide) (by decide)).1,
   ((extraction_failure_strings envFail encDemo
      "https://example.com/b".toList).2 (by decide) rfl).1⟩

/-- C1: the conversation log is append-only: the first element is always
the system message installed at session start, the two operations in the
source (the initial construction in `main` and the greeting append in
`on_first_participant_joined`) only add messages at the tail, and an
earlier snapshot of the log is a prefix of any later one. -/
theorem conversation_log_append_only (env : Env) (enc : Encoding)
    (url : List Char) (t1 t2 : Nat) (h : t1 ≤ t2) :
    session_log env enc url t1 <+: session_log env enc url t2 ∧
    (session_log env enc url t1).head? =
      some ⟨Role.system, system_message_content (ingest env enc url)⟩ ∧
    (∀ ms : List Message,
      on_first_participant_joined ms = ms ++ [greeting_message]) := by
  refine ⟨?_, ?_, fun ms => rfl⟩
  · cases t1 with
    | zero =>
      cases t2 with
      | zero => exact List.prefix_refl _
      | succ n => exact ⟨[greeting_message], rfl⟩
    | succ n =>
      cases t2 with
      | zero => exact absurd h (Nat.not_succ_le_zero n)
      | succ m => exact List.prefix_refl _
  · cases t1 <;> rfl

/-- Witness for C1: the log at time 0 is a prefix of the log at time 1 in a
concrete session. -/
theorem conversation_log_append_only_witness :
    session_log envDemo encDemo "u".toList 0 <+:
      session_log envDemo encDemo "u".toList 1 :=
  (conversation_log_append_only envDemo encDemo "u".toList 0 1
    (by decide)).1

/-- C5 counterexample: the greeting appended by
`on_first_participant_joined` is authored with role system in the source
(src/studypal.py line 142), not as an assistant message. -/
theorem greeting_role_counterexample :
    (on_first_participant_joined []).getLast? = some greeting_message ∧
    greeting_message.role = Role.system ∧
    Role.system ≠ Role.assistant :=
  ⟨rfl, rfl, by decide⟩

/-- C5 (amended): the first-participant-joined lifecycle event is delivered
once per session and triggers appending exactly one initial greeting,
authored as a system message, at the tail of the conversation context
before the first user turn is processed. -/
theorem greeting_appended_once (ms : List Message) :
    on_first_participant_joined ms = ms ++ [greeting_message] ∧
    (on_first_participant_joined ms).length = ms.length + 1 ∧
    greeting_message.role = Role.system := by
  refine ⟨rfl, ?_, rfl⟩
  simp [on_first_participant_joined]

/-- C6: the pipeline is run with interruptions enabled
(`allow_interruptions=True` in src/studypal.py line 136), and in the
spec-modelled forwarding of an assistant reply interrupted at frame `k`, no
frame at or beyond index `k` is forwarded to the transport output. -/
theorem interruption_stops_forwarding (reply : List Nat) (k i : Nat)
    (h : k ≤ i) :
    task_params.allow_interruptions = true ∧
    (forwarded_to_output task_params reply (some k)).get? i = none := by
  refine ⟨rfl, ?_⟩
  have hlen : (forwarded_to_output task_params reply (some k)).length ≤ i := by
    simp only [forwarded_to_output, task_params, if_true]
    rw [List.length_take]
    omega
  exact List.get?_eq_none.mpr hlen

/-- Witness for C6: a reply of three frames interrupted after one frame
forwards nothing at index 2. -/
theorem interruption_stops_forwarding_witness :
    task_params.allow_interruptions = true ∧
    (forwarded_to_output task_params [10, 20, 30] (some 1)).get? 2 = none :=
  interruption_stops_forwarding [10, 20, 30] 1 2 (by decide)

/-- The initial turn system satisfies the invariant. -/
theorem tcInv_init : tcInv tcInit := by
  constructor <;> simp [tcInit]

/-- Every transition preserves the single-turn-in-flight invariant. -/
theorem tcInv_step (s : TurnSystem) (e : TCEvent) (h : tcInv s) :
    tcInv (tcStep s e) := by
  obtain ⟨tc, active, next⟩ := s
  obtain ⟨h1, h2⟩ := h
  have h1a : active.length ≤ 1 := h1
  have hdropnil : active.drop 1 = [] := by
    rw [← List.length_eq_zero, List.length_drop]
    omega
  cases tc <;> cases e <;> simp_all [tcStep, tcInv]

/-- The invariant holds in every reachable state. -/
theorem tcInv_run (events : List TCEvent) : tcInv (runTC events) := by
  unfold runTC
  suffices htc : ∀ s : TurnSystem, tcInv s → tcInv (events.foldl tcStep s) from
    htc tcInit tcInv_init
  induction events with
  | nil => exact fun s hs => hs
  | cons e es ih => exact fun s hs => ih (tcStep s e) (tcInv_step s e hs)

/-- From a state satisfying the invariant, a transition that starts a new
GenerationStage/SynthesisStage pair can only fire when none is active. -/
theorem tcStep_growth (s : TurnSystem) (e : TCEvent) (h : tcInv s)
    (hg : s.active.length < (tcStep s e).active.length) : s.active = [] := by
  obtain ⟨tc, active, next⟩ := s
  obtain ⟨h1, h2⟩ := h
  have h1a : active.length ≤ 1 := h1
  cases tc <;> cases e <;> simp_all [tcStep]

/-- C7 (spec-modelled): in the turn-taking machine of the spec, at most one
GenerationStage/SynthesisStage pair is active at any reachable instant, and
the pair for a new turn starts only when no pair is active, i.e. only after
the previous turn reached a terminal state (completed or
cancelled-and-drained). -/
theorem single_turn_in_flight (events : List TCEvent) :
    (runTC events).active.length ≤ 1 ∧
    (∀ e : TCEvent,
      (runTC events).active.length < (tcStep (runTC events) e).active.length →
      (runTC events).active = []) :=
  ⟨(tcInv_run events).1,
   fun e hg => tcStep_growth (runTC events) e (tcInv_run events) hg⟩

/-- Witness for C7: after session start, the state reached has no active
pair, and starting the first turn grows the active set from that empty
state. -/
theorem single_turn_in_flight_witness :
    (runTC [TCEvent.sessionStart]).active.length ≤ 1 ∧
    (runTC [TCEvent.sessionStart]).active = [] :=
  ⟨(single_turn_in_flight [TCEvent.sessionStart]).1,
   (single_turn_in_flight [TCEvent.sessionStart]).2 TCEvent.transcriptFinal
     (by decide)⟩
